import Mathlib

/-!
Verification of the ProjSamarth prototype (schema normalization, analytical
query engine, evidence ranking / argument generation) against its
natural-language specification.

The Python sources are shallowly embedded over exact rationals (`ℚ`):
float arithmetic in the original is modelled exactly, `NaN` / `None` /
`pd.NA` are modelled by explicit constructors or `Option`, and an operation
that raises an uncaught exception is modelled by an `Option`-valued function
returning `none`.
-/

set_option maxRecDepth 8000
set_option maxHeartbeats 1000000

namespace Samarth

/-! ## Evidence normalization (`normalization.py`)

`normalize_evidence` parses dates and assigns heuristic scores.  The call
`(datetime.now() - dt).days` is modelled by the field `daysAgo` (the signed
day difference computed at call time); a missing or unparseable date is
`none`.  Identifier assignment (`ev{i}`) touches no score and is not
modelled here.  Field `trust` holds the truthiness of the `trust` entry and
`relevance` the numeric value of a present-and-truthy `relevance` entry
(`none` both when the key is absent and when its value is falsy, i.e. `0`,
which contributes `min 0.3 (0/10) = 0` either way). -/

structure EvN where
  score : Option ℚ
  daysAgo : Option ℤ
  trust : Bool
  relevance : Option ℚ
deriving DecidableEq, Repr

/-- Score heuristic of `normalize_evidence` (normalization.py lines 22–38):
base `0.5`, `+0.2` if the date is less than 365 days old, else `+0.1` if
less than `365*5 = 1825` days old, `+0.1` for a truthy `trust`,
`+ min 0.3 (relevance/10)` for a truthy `relevance`, capped at `1.0`. -/
def assignedScore (e : EvN) : ℚ :=
  let b1 : ℚ := 1/2
  let b2 : ℚ := b1 + (match e.daysAgo with
    | some d => if d < 365 then 1/5 else if d < 1825 then 1/10 else 0
    | none => 0)
  let b3 : ℚ := b2 + (if e.trust then 1/10 else 0)
  let b4 : ℚ := b3 + (match e.relevance with
    | some r => min (3/10) (r/10)
    | none => 0)
  min 1 b4

/-- The score attached to an item: a present score is kept unchanged,
otherwise the heuristic value is assigned. -/
def evScore (e : EvN) : ℚ := e.score.getD (assignedScore e)

/-- `normalize_evidence` (normalization.py lines 3–41), restricted to the
fields that determine scores. -/
def normalize_evidence (es : List EvN) : List EvN :=
  es.map (fun e => { e with score := some (evScore e) })

/-! ## Provenance aggregation (`normalization.py`, `provenance_score`) -/

/-- Descending insertion sort, the model of Python
`sorted(vals, reverse=True)` on rationals. -/
def insertDescQ (x : ℚ) : List ℚ → List ℚ
  | [] => [x]
  | y :: ys => if y ≤ x then x :: y :: ys else y :: insertDescQ x ys

def sortDescQ : List ℚ → List ℚ
  | [] => []
  | x :: xs => insertDescQ x (sortDescQ xs)

/-- The enumerated weighted sum
`sum(v*((i+1)/n) for i, v in enumerate(l))`: `wsumAux n i l` is the partial
sum starting at index `i`. -/
def wsumAux (n : ℚ) : ℕ → List ℚ → ℚ
  | _, [] => 0
  | i, v :: rest => v * ((i + 1 : ℚ) / n) + wsumAux n (i + 1) rest

inductive PSResult where
  | meanOnly (mean : ℚ)
  | full (mean weighted : ℚ)
deriving DecidableEq, Repr

/-- `provenance_score` (normalization.py lines 43–52): the empty list gets
only `mean = 0.0`; otherwise the mean and the rank-weighted mean over the
descending-sorted values are returned. -/
def provenance_score (vals : List ℚ) : PSResult :=
  match vals with
  | [] => .meanOnly 0
  | _ => .full (vals.sum / vals.length)
      (wsumAux (vals.length) 0 (sortDescQ vals) / vals.length)

/-! ## Query engine (`qa_engine.py`)

The query functions take caller-supplied canonical dataframes.  A production
row carries the canonical columns read by the engine; `year` and
`production` are `none` where the dataframe holds a null/NaN.  Years are
modelled as integers (the engine only ever compares, sorts and groups
them). -/

structure CropRow where
  state : String
  district : String
  crop : String
  year : Option ℤ
  production : Option ℚ
deriving DecidableEq, Repr

structure RainRow where
  state : String
  year : Option ℤ
  rainfall : Option ℚ
deriving DecidableEq, Repr

/-- Ascending insertion sort on integers (model of sorted year keys). -/
def insertAscZ (x : ℤ) : List ℤ → List ℤ
  | [] => [x]
  | y :: ys => if x ≤ y then x :: y :: ys else y :: insertAscZ x ys

def sortAscZ : List ℤ → List ℤ
  | [] => []
  | x :: xs => insertAscZ x (sortAscZ xs)

/-- Row filter of `trend_and_correlation` (qa_engine.py line 197):
`crops[(crops.state == region) & (crops.crop == crop)]`. -/
def tc_filter (region crop : String) (crops : List CropRow) : List CropRow :=
  crops.filter (fun r => r.state == region && r.crop == crop)

/-- Distinct non-null years of a row set, ascending (the group keys of
`groupby('year')`, which drops null keys and sorts). -/
def tc_years (rows : List CropRow) : List ℤ :=
  sortAscZ ((rows.filterMap (·.year)).dedup)

/-- `c.groupby('year')['production'].sum().sort_index()`
(qa_engine.py line 201): per-year production sums; pandas `sum` skips
nulls and returns 0 for an all-null group. -/
def tc_yearly (rows : List CropRow) : List (ℤ × ℚ) :=
  (tc_years rows).map (fun y =>
    (y, ((rows.filter (fun r => r.year == some y)).filterMap (·.production)).sum))

/-- The joined table of qa_engine.py lines 202–203: the per-year production
sums left-joined on year with the region's rainfall series, then `dropna`
(so exactly the pairs with a matching non-null rainfall value survive; a
year with several rainfall rows contributes one joined row per match). -/
def tc_joined (region crop : String) (crops : List CropRow)
    (rain : List RainRow) : List (ℤ × ℚ × ℚ) :=
  (tc_yearly (tc_filter region crop crops)).flatMap (fun yp =>
    ((rain.filter (fun r => r.state == region && r.year == some yp.1)).filterMap
        (·.rainfall)).map (fun rf => (yp.1, yp.2, rf)))

/-- Pandas `Series.corr` (Pearson): `NaN` (here `none`) when fewer than two
points or a zero variance; otherwise `r = sxy / sqrt(sxx*syy)`, which is
irrational in general, so the value is encoded by its signed square
`r*|r| = sxy*|sxy| / (sxx*syy)` (a strictly monotone bijection of `r` into
`ℚ`); definedness matches the source exactly. -/
def pearson (pts : List (ℚ × ℚ)) : Option ℚ :=
  if pts.length < 2 then none
  else
    let n : ℚ := pts.length
    let mx := (pts.map (·.1)).sum / n
    let my := (pts.map (·.2)).sum / n
    let sxx := (pts.map (fun p => (p.1 - mx)^2)).sum
    let syy := (pts.map (fun p => (p.2 - my)^2)).sum
    let sxy := (pts.map (fun p => (p.1 - mx) * (p.2 - my))).sum
    if sxx = 0 ∨ syy = 0 then none
    else some (sxy * |sxy| / (sxx * syy))

/-- `np.polyfit(x, y, 1)[0]` as used on the joined year/production series.
`numpy` raises on an empty `x` (`none`).  For a single point `(x, y)` with
`x ≠ 0` it emits a `RankWarning` and returns the minimal-norm least-squares
solution of the column-scaled system, whose slope is `y / (2x)`; for `x = 0`
the scaling divides by zero (`none`).  For two or more points with distinct
`x`s it is the ordinary least-squares slope `sxy / sxx`; the rank-deficient
case (`sxx = 0`, all `x` equal, again a minimal-norm solution in numpy) is
modelled as `none` and is not exercised by any claim (the joined `x`s are
distinct group keys in every theorem below). -/
def polyfit_slope (pts : List (ℤ × ℚ)) : Option ℚ :=
  match pts with
  | [] => none
  | [xy] => if xy.1 = 0 then none else some (xy.2 / (2 * (xy.1 : ℚ)))
  | _ =>
    let n : ℚ := pts.length
    let mx := (pts.map (fun p => (p.1 : ℚ))).sum / n
    let my := (pts.map (·.2)).sum / n
    let sxx := (pts.map (fun p => ((p.1 : ℚ) - mx)^2)).sum
    let sxy := (pts.map (fun p => ((p.1 : ℚ) - mx) * (p.2 - my))).sum
    if sxx = 0 then none else some (sxy / sxx)

inductive TCResult where
  | err (msg : String)
  | ok (slope : Option ℚ) (corr : Option ℚ) (years : List ℤ)
deriving DecidableEq, Repr

/-- `trend_and_correlation` (qa_engine.py lines 194–216).  Note that the
`years` parameter is accepted but never read by the source body. -/
def trend_and_correlation (region crop : String) (years : ℕ)
    (crops : List CropRow) (rain : List RainRow) : TCResult :=
  if tc_filter region crop crops = [] then .err "No crop data for region"
  else
    let j := tc_joined region crop crops rain
    if j = [] then .err "No overlapping rainfall data for region"
    else .ok (polyfit_slope (j.map (fun t => (t.1, t.2.1))))
             (pearson (j.map (fun t => (t.2.1, t.2.2))))
             (j.map (·.1))

/-- `sorted(crops['year'].dropna().unique(), reverse=True)[:years]`
(qa_engine.py line 222): the window `policy_arguments_for_crop_promotion`
uses, and the window the specification ascribes to
`trend_and_correlation`. -/
def recent_years (years : ℕ) (crops : List CropRow) : List ℤ :=
  (sortAscZ ((crops.filterMap (·.year)).dedup)).reverse.take years

/-- Pandas sample variance (`Series.var`, `ddof=1`, null-skipping): `NaN`
(here `none`) when fewer than two non-null values. -/
def sampleVar (v : List ℚ) : Option ℚ :=
  if v.length < 2 then none
  else
    let m := v.sum / v.length
    some ((v.map (fun x => (x - m)^2)).sum / ((v.length : ℚ) - 1))

/-- Variance sentinel of `policy_arguments_for_crop_promotion`
(qa_engine.py lines 249–250): `float(c['production'].var()) if len(c) > 1
else float('inf')`; the float `inf` is `⊤ : WithTop ℚ` and a NaN variance
(two or more rows but fewer than two non-null values) is `none`. -/
def crop_variance (rows : List CropRow) : Option (WithTop ℚ) :=
  if 1 < rows.length then
    (sampleVar (rows.filterMap (·.production))).map (fun q => (q : WithTop ℚ))
  else some ⊤

structure ExtRow where
  district : String
  production : ℚ
  year : ℤ
deriving DecidableEq, Repr

/-- First row attaining the best non-null production (`idxmax` / `idxmin`
return the first extremal index and skip nulls); `none` when every
production is null (pandas raises there). -/
def bestRowP (useMax : Bool) (rows : List CropRow) : Option (CropRow × ℚ) :=
  (rows.filterMap (fun r => r.production.map (fun p => (r, p)))).foldl
    (fun acc rp =>
      match acc with
      | none => some rp
      | some best => if (if useMax then best.2 < rp.2 else rp.2 < best.2)
          then some rp else some best) none

/-- The inner `extreme` helper of `find_district_extreme` (qa_engine.py
lines 178–185): `some none` models returning Python `None` for an empty
selection; outer `none` models the exception pandas raises when asked for
an extremal index of an all-null column. -/
def fde_extreme (sel : List CropRow) (useMax : Bool) (recent : ℤ) :
    Option (Option ExtRow) :=
  if sel = [] then some none
  else
    match bestRowP useMax sel with
    | none => none
    | some rp => some (some ⟨rp.1.district, rp.2, recent⟩)

structure FDEOut where
  state_x_max : Option ExtRow
  state_y_min : Option ExtRow
  year : ℤ
deriving DecidableEq, Repr

/-- `find_district_extreme` (qa_engine.py lines 172–191).  The first step
`int(crops['year'].dropna().max())` raises `ValueError` when no non-null
year exists (`int(float('nan'))`), modelled by `none`. -/
def find_district_extreme (sx sy crop : String) (crops : List CropRow) :
    Option FDEOut :=
  match (crops.filterMap (·.year)).max? with
  | none => none
  | some recent =>
    let fsel := fun st => crops.filter
      (fun r => r.state == st && r.crop == crop && r.year == some recent)
    match fde_extreme (fsel sx) true recent, fde_extreme (fsel sy) false recent with
    | some ex, some ey => some ⟨ex, ey, recent⟩
    | _, _ => none

/-! ## Argument generator (`generator.py`)

Evidence items are records; the generator reads `id`, `score`, `date`,
`headline`, `title` and `source`.  Dates enter only through
`datetime.timestamp()`, modelled as an integer timestamp with the epoch
fallback `datetime(1970, 1, 1)` at 0. -/

structure GEv where
  id : Option String
  score : Option ℚ
  date : Option ℤ
  headline : Option String
  title : Option String
  source : Option String
deriving DecidableEq, Repr

instance : Inhabited GEv := ⟨⟨none, none, none, none, none, none⟩⟩

/-- The sort key `_key` of `generate_policy_argument` (generator.py lines
27–46): `(-score, -timestamp)` with score defaulting to `0.5` and a
missing/unparseable date falling back to the epoch. -/
def pyKey (e : GEv) : ℚ × ℤ := (-(e.score.getD (1/2)), -(e.date.getD 0))

/-- Lexicographic order on sort keys (Python tuple comparison). -/
def keyPairLe (p q : ℚ × ℤ) : Prop :=
  p.1 < q.1 ∨ (p.1 = q.1 ∧ p.2 ≤ q.2)

instance keyPairLe.dec (p q : ℚ × ℤ) : Decidable (keyPairLe p q) := by
  unfold keyPairLe; infer_instance

/-- Stable insertion step for the generator's sort. -/
def insertEv (x : GEv) : List GEv → List GEv
  | [] => [x]
  | y :: ys => if keyPairLe (pyKey x) (pyKey y) then x :: y :: ys else y :: insertEv x ys

/-- Model of Python's `sorted(evidence, key=_key)`: a stable insertion sort
with respect to the total preorder `keyPairLe` on keys.  Python's sort is
also stable for the same preorder, and the stable sorted rearrangement is
unique, so the two agree on every input. -/
def sortEv : List GEv → List GEv
  | [] => []
  | x :: xs => insertEv x (sortEv xs)

/-- Python truthiness filter for the `or`-chains over string fields
(an empty string is falsy). -/
def truthyStr : Option String → Option String
  | some s => if s = "" then none else some s
  | none => none

/-- One summary part: `e.get('headline') or e.get('title') or
e.get('source') or e.get('id')` (generator.py line 12); the final
alternative is taken as-is, so a `none` id leaves the part `None`. -/
def partOf (e : GEv) : Option String :=
  match truthyStr e.headline with
  | some s => some s
  | none => match truthyStr e.title with
    | some s => some s
    | none => match truthyStr e.source with
      | some s => some s
      | none => e.id

/-- `_summarize_evidence` (generator.py lines 8–13): joins the first three
parts with `" | "`.  A `None` part makes `str.join` raise `TypeError`,
modelled by `none`. -/
def summarize (items : List GEv) : Option String :=
  let parts := (items.take 3).map partOf
  if parts.all (·.isSome) then some (String.intercalate " | " (parts.map (·.getD "")))
  else none

structure PArg where
  title : String
  argument : String
  provenance : ℚ
  sources : List String
deriving DecidableEq, Repr

instance : Inhabited PArg := ⟨⟨"", "", 0, []⟩⟩

/-- The record appended for one slot (generator.py lines 78–90): templated
pro/con argument text by slot parity, the title from the first 80 summary
characters, the mean score of the selected items with the divisor guarded
by `max(1, len(selected))`, and the cited ids (`e.get('id', '?')`). -/
def mkArg (q : String) (i : ℕ) (sel : List GEv) (summary : String) : PArg :=
  { title := (if i % 2 == 0 then "For: " else "Against: ") ++ summary.take 80
  , argument := (if i % 2 == 0 then "Expand program: " else "Caution against expansion: ")
      ++ (q ++ " — " ++ (if i % 2 == 0 then "benefits" else "risks"))
      ++ ". Evidence: " ++ summary ++ "."
  , provenance := (sel.map (fun e => e.score.getD (1/2))).sum / ((max 1 sel.length : ℕ) : ℚ)
  , sources := sel.map (fun e => e.id.getD "?") }

/-- The small-evidence branch (generator.py lines 58–63): a window of
`min 3 n` items starting at `i mod n`, wrapping around. -/
def selectSmall (s : List GEv) (i : ℕ) : List GEv :=
  (List.range (min 3 s.length)).filterMap (fun j => s[(i % s.length + j) % s.length]?)

/-- The greedy not-yet-used loop (generator.py lines 66–72): walk the
sorted list, skip items whose id is already used, stop after three picks;
ids of picked items are added to the used set (modelled as an ordered
list with membership lookups). -/
def greedy : List GEv → List (Option String) → List GEv → List GEv × List (Option String)
  | [], used, sel => (sel, used)
  | e :: rest, used, sel =>
    if 3 ≤ sel.length then (sel, used)
    else if used.contains e.id then greedy rest used sel
    else greedy rest (used ++ [e.id]) (sel ++ [e])

/-- One generation slot (generator.py lines 53–90): branch on the evidence
count, fall back to the top `min 3 n` items when the selection came out
empty, and build the argument record; a raising `_summarize_evidence`
aborts the call (`none`). -/
def slotFor (s : List GEv) (q : String) (used : List (Option String)) (i : ℕ) :
    Option PArg × List (Option String) :=
  let n := s.length
  let su :=
    if n = 0 then (([] : List GEv), used)
    else if n ≤ 3 then (selectSmall s i, used)
    else greedy s used []
  let selected := if su.1.isEmpty then s.take (min 3 n) else su.1
  match summarize selected with
  | none => (none, su.2)
  | some summary => (some (mkArg q i selected summary), su.2)

/-- The loop body of `generate_policy_argument`: thread the used-id set and
the accumulated arguments; a raised exception (`none`) aborts. -/
def genStep (s : List GEv) (q : String)
    (st : Option (List PArg) × List (Option String)) (i : ℕ) :
    Option (List PArg) × List (Option String) :=
  match st.1 with
  | none => st
  | some args =>
    match slotFor s q st.2 i with
    | (none, u) => (none, u)
    | (some a, u) => (some (args ++ [a]), u)

/-- `generate_policy_argument` (generator.py lines 16–92). -/
def generate_policy_argument (q : String) (evidence : List GEv) (top_k : ℕ) :
    Option (List PArg) :=
  ((List.range top_k).foldl (genStep (sortEv evidence) q) (some [], [])).1

/-- The selection the claim describes for slot `i` over the sorted list
`s`: for `1 ≤ n ≤ 3` the `min 3 n` items starting at index `i mod n`,
wrapping around; for `n > 3` the next up-to-3 not-yet-used items in sorted
order, i.e. `(s.drop (3*i)).take 3`, falling back to the globally
top-ranked `min 3 n` items when every item has been used. -/
def expectedSelSpec (s : List GEv) (i : ℕ) : List GEv :=
  if s.length = 0 then []
  else if s.length ≤ 3 then
    (List.range (min 3 s.length)).map (fun j => s.getD ((i % s.length + j) % s.length) default)
  else if (s.drop (3 * i)).isEmpty then s.take (min 3 s.length)
  else (s.drop (3 * i)).take 3

/-- The used-id set the greedy branch has accumulated before slot `i`:
the ids of the first `3*i` sorted items (nothing in the small-evidence
branches). -/
def usedSpec (s : List GEv) (i : ℕ) : List (Option String) :=
  if 3 < s.length then (s.take (3 * i)).map GEv.id else []

/-- Claim C9 as a predicate: the sorted list is ordered by
score-descending-then-date-descending keys and is a permutation of the
input, the call produces exactly `top_k` records, and slot `i` is built by
`mkArg` (pro framing for even `i`, con for odd `i`) from the selection
`expectedSelSpec`. -/
def SelectionSpec (q : String) (ev : List GEv) (k : ℕ) : Prop :=
  List.Pairwise (fun a b => keyPairLe (pyKey a) (pyKey b)) (sortEv ev) ∧
  (sortEv ev).Perm ev ∧
  match generate_policy_argument q ev k with
  | none => False
  | some args =>
    args.length = k ∧
    ∀ i, i < k →
      args.getD i default =
        mkArg q i (expectedSelSpec (sortEv ev) i)
          ((summarize (expectedSelSpec (sortEv ev) i)).getD "")

/-- Claim C10 as a predicate: on the empty evidence list the generator
returns exactly `top_k` records, each with no cited sources, provenance
score `0`, and non-empty templated argument text. -/
def emptyGenSpec (q : String) (k : ℕ) : Prop :=
  match generate_policy_argument q [] k with
  | none => False
  | some args =>
    args.length = k ∧
    ∀ a ∈ args, a.sources = [] ∧ a.provenance = 0 ∧ a.argument ≠ ""

/-! ## Row checksums (`schema_mapper.py`)

`map_schema` attaches `__row_id = sha1('|'.join(str(x) for x in
row_values))` to each output row (lines 85–96).  `sha1` maps equal byte
strings to equal digests, so the digest is modelled by its pre-image, the
`'|'`-joined serialization of the row's stringified canonical values: every
checksum equality proved below holds verbatim for the real digests, and the
collision exhibited for C7 is a genuine collision of the real ids. -/

def joinBar : List String → String
  | [] => ""
  | v :: rest => rest.foldl (fun acc x => acc ++ "|" ++ x) v

def row_checksum (vals : List String) : String := joinBar vals

/-- The `__row_id` column of `map_schema` (schema_mapper.py lines 92–94):
one checksum per output row, a function of that row's canonical values
(here already stringified) only. -/
def map_schema_ids (rows : List (List String)) : List String :=
  rows.map row_checksum

/-! ## Schema normalizer (`app/normalize.py`)

A raw dataframe is an ordered list of named columns over cells.  Pandas has
three distinct null flavours that stringify differently under
`astype(str)`: Python `None` (→ `"None"`), float `NaN` (→ `"nan"`) and
`pd.NA` (→ `"<NA>"`); all three are absorbed by `fillna` and coerce to NaN
under `to_numeric`. -/

inductive Cell where
  | pynone
  | nan
  | na
  | num (q : ℚ)
  | text (s : String)
deriving DecidableEq, Repr

abbrev DF := List (String × List Cell)

/-- Prefix test on character lists (structural, kernel-computable). -/
def isPrefixCL : List Char → List Char → Bool
  | [], _ => true
  | _ :: _, [] => false
  | a :: as, b :: bs => a == b && isPrefixCL as bs

/-- Occurrence test on character lists. -/
def containsCL (pat : List Char) : List Char → Bool
  | [] => pat.isEmpty
  | c :: rest => isPrefixCL pat (c :: rest) || containsCL pat rest

/-- Python `pat in s` substring test. -/
def containsSub (s pat : String) : Bool := containsCL pat.data s.data

def isSpaceChar (c : Char) : Bool := c == ' ' || c == '\t' || c == '\n' || c == '\r'

/-- Python `str.strip()` (ASCII whitespace; the data in scope carries no
exotic whitespace). -/
def trimCL (l : List Char) : List Char :=
  ((l.dropWhile isSpaceChar).reverse.dropWhile isSpaceChar).reverse

def trimStr (s : String) : String := String.mk (trimCL s.data)

def lowerStr (s : String) : String := String.mk (s.data.map Char.toLower)

def lowerTrim (s : String) : String := lowerStr (trimStr s)

def startsWithStr (s pat : String) : Bool := isPrefixCL pat.data s.data

def endsWithStr (s pat : String) : Bool := isPrefixCL pat.data.reverse s.data.reverse

/-- Integer parser for `pd.to_numeric` on strings (optional sign, all
digits). -/
def parseDigits : List Char → Option ℕ
  | [] => none
  | l => if l.all Char.isDigit then
      some (l.foldl (fun acc c => acc * 10 + (c.toNat - 48)) 0)
    else none

def parseIntCL (l : List Char) : Option ℤ :=
  match l with
  | '-' :: rest => (parseDigits rest).map (fun n => -(n : ℤ))
  | _ => (parseDigits l).map (fun n => (n : ℤ))

/-- All value-lists of columns labelled `n` (pandas `df[n]` returns every
occurrence when the label is duplicated). -/
def dfSelect (df : DF) (n : String) : List (List Cell) :=
  (df.filter (fun c => c.1 == n)).map (·.2)

def dfHasCol (df : DF) (n : String) : Bool := df.any (fun c => c.1 == n)

/-- `df[n] = v`: replaces every column labelled `n`, or appends a new
column. -/
def dfSetCol (df : DF) (n : String) (v : List Cell) : DF :=
  if dfHasCol df n then df.map (fun c => if c.1 == n then (n, v) else c)
  else df ++ [(n, v)]

/-- The first column labelled `n` (used to state theorems about outputs). -/
def dfGetCol (df : DF) (n : String) : List Cell :=
  ((dfSelect df n).head?).getD []

def dfNRows (df : DF) : ℕ := (df.head?.map (fun c => c.2.length)).getD 0

/-- `df[names]` for a list key: each name contributes every matching
column, in key order (pandas `get_indexer_non_unique`). -/
def dfSelectList (df : DF) (names : List String) : List (List Cell) :=
  names.flatMap (dfSelect df)

/-- `pd.to_numeric(·, errors='coerce')` on one cell: numbers pass through,
integer-literal strings parse (the only numeric strings the claims
exercise; other parses behave alike), everything else coerces to NaN. -/
def toNumericCell : Cell → Cell
  | .num q => .num q
  | .text s => match parseIntCL (trimCL s.data) with
    | some n => .num n
    | none => .nan
  | _ => .nan

def toNumericCol (v : List Cell) : List Cell := v.map toNumericCell

def cellNumVal : Cell → Option ℚ
  | .num q => some q
  | _ => none

/-- The heads of the columns: one dataframe row. -/
def headsOf (cols : List (List Cell)) : List Cell := cols.filterMap List.head?

def tailsOf (cols : List (List Cell)) : List (List Cell) := cols.map List.tail

/-- The `n` rows of an equal-length column collection. -/
def rowsOf : ℕ → List (List Cell) → List (List Cell)
  | 0, _ => []
  | n + 1, cols => headsOf cols :: rowsOf n (tailsOf cols)

def colsNRows (cols : List (List Cell)) : ℕ := (cols.head?.map List.length).getD 0

/-- `DataFrame.sum(axis=1)` over numeric-coerced columns: per row the sum
of the non-NaN values (an all-NaN row sums to `0.0`). -/
def rowwiseSum (cols : List (List Cell)) : List Cell :=
  (rowsOf (colsNRows cols) cols).map (fun row => .num ((row.filterMap cellNumVal).sum))

/-- `DataFrame.mean(axis=1)`: per row the mean of the non-NaN values
(`NaN` when none). -/
def rowwiseMean (cols : List (List Cell)) : List Cell :=
  (rowsOf (colsNRows cols) cols).map (fun row =>
    let v := row.filterMap cellNumVal
    if v.length = 0 then Cell.nan else .num (v.sum / v.length))

/-- `astype(str)` on one cell.  A numeric cell is stringified by the `ℚ`
printer (Python prints floats as e.g. `2018.0`); the claims only ever
stringify numeric cells inside the 4-digit-year scan, where integral values
expose the same digit run either way. -/
def pyStrOfCell : Cell → String
  | .pynone => "None"
  | .nan => "nan"
  | .na => "<NA>"
  | .num q => toString q
  | .text s => s

def astypeStrCol (v : List Cell) : List Cell := v.map (fun c => .text (pyStrOfCell c))

/-- A `.str` accessor method: applies to string cells, yields NaN on
anything else. -/
def strMapCol (f : String → String) (v : List Cell) : List Cell :=
  v.map (fun c => match c with
    | .text s => .text (f s)
    | _ => Cell.nan)

def fillnaCol (r : Cell) (v : List Cell) : List Cell :=
  v.map (fun c => match c with
    | .pynone => r
    | .nan => r
    | .na => r
    | other => other)

/-- Python `str.title()` restricted to ASCII letters: the first letter of
each alphabetic run is upper-cased, the rest lower-cased. -/
def pyTitleAux : Bool → List Char → List Char
  | _, [] => []
  | prev, ch :: rest =>
    (if ch.isAlpha then (if prev then ch.toLower else ch.toUpper) else ch)
      :: pyTitleAux ch.isAlpha rest

def pyTitle (s : String) : String := String.mk (pyTitleAux false s.data)

/-- The column map of `normalize_agriculture` (app/normalize.py lines
7–22): a chain of independent `if`s over the lower-cased name, so a later
match overwrites an earlier one. -/
def agriTarget (c : String) : Option String := Id.run do
  let mut t : Option String := none
  if containsSub c "state" then t := some "state"
  if containsSub c "district" then t := some "district"
  if c == "year" || c == "yyyy" then t := some "year"
  if containsSub c "crop" then t := some "crop"
  if containsSub c "production" || containsSub c "prod" then t := some "production_tonnes"
  if containsSub c "area" then t := some "area"
  if containsSub c "season" then t := some "season"
  return t

/-- `normalize_agriculture` (app/normalize.py lines 4–43).  `none` models
an uncaught pandas exception: selecting a duplicated label and then using
Series-only methods (`.str`, `pd.to_numeric` on a frame) raises; the
production column is the one duplicate-tolerant step (lines 24–31),
summing duplicate-mapped columns row-wise.  Missing required columns are
filled with Python `None` (lines 34–36, 40–42). -/
def normalize_agriculture (df0 : DF) : Option DF :=
  let df1 : DF := df0.map (fun c => (lowerTrim c.1, c.2))
  let df2 : DF := df1.map (fun c => ((agriTarget c.1).getD c.1, c.2))
  let df3 : DF :=
    match dfSelect df2 "production_tonnes" with
    | [] => df2
    | [v] => dfSetCol df2 "production_tonnes" (toNumericCol v)
    | vs => dfSetCol df2 "production_tonnes" (rowwiseSum (vs.map toNumericCol))
  (match dfSelect df3 "year" with
   | [] => some df3
   | [v] => some (dfSetCol df3 "year" (toNumericCol v))
   | _ => none).bind (fun df4 =>
  (let df5 := ["state", "year", "crop", "production_tonnes"].foldl
      (fun d req => if dfHasCol d req then d
        else d ++ [(req, List.replicate (dfNRows d) Cell.pynone)]) df4
   (match dfSelect df5 "state" with
    | [v] => some (dfSetCol df5 "state"
        (fillnaCol (.text "Unknown")
          (strMapCol pyTitle (strMapCol trimStr (astypeStrCol v)))))
    | _ => none).bind (fun df6 =>
   (match dfSelect df6 "crop" with
    | [v] => some (dfSetCol df6 "crop"
        (fillnaCol (.text "unknown")
          (strMapCol lowerStr (strMapCol trimStr (astypeStrCol v)))))
    | _ => none).map (fun df7 =>
   let cols := ["state", "district", "year", "crop", "season", "production_tonnes", "area"]
   let df8 := cols.foldl (fun d c => if dfHasCol d c then d
      else d ++ [(c, List.replicate (dfNRows d) Cell.pynone)]) df7
   cols.flatMap (fun n => df8.filter (fun col => col.1 == n))))))

def isWordChar (ch : Char) : Bool := ch.isAlphanum || ch == '_'

/-- Maximal word-character runs of a string.  `re.search(r"\brain\b", s)`
succeeds exactly when some run equals `"rain"`. -/
def wordRunsAux : List Char → List Char → List String
  | acc, [] => if acc.isEmpty then [] else [String.mk acc.reverse]
  | acc, ch :: rest =>
    if isWordChar ch then wordRunsAux (ch :: acc) rest
    else if acc.isEmpty then wordRunsAux [] rest
    else String.mk acc.reverse :: wordRunsAux [] rest

def wordRuns (s : String) : List String := wordRunsAux [] s.data

/-- The column map of `normalize_rainfall`'s long branch (app/normalize.py
lines 104–117); the rain condition is
`re.search(r'\brain\b', lc) or 'rainfall' in lc or
(lc.endswith('_mm') and 'rain' in lc)`. -/
def rainTargetOf (lc : String) : Option String := Id.run do
  let mut t : Option String := none
  if containsSub lc "state" then t := some "state"
  if containsSub lc "district" then t := some "district"
  if lc == "year" || lc == "yyyy" then t := some "year"
  if containsSub lc "month" && !containsSub lc "month of" then t := some "month"
  if (wordRuns lc).contains "rain" || containsSub lc "rainfall"
      || (endsWithStr lc "_mm" && containsSub lc "rain") then t := some "rainfall_mm"
  return t

/-- First run of four consecutive digits (`str.extract(r"(\d{4})")`). -/
def fourDigitsAt : List Char → Option ℕ
  | c1 :: c2 :: c3 :: c4 :: _ =>
    if c1.isDigit && c2.isDigit && c3.isDigit && c4.isDigit then
      some ((((c1.toNat - 48) * 10 + (c2.toNat - 48)) * 10 + (c3.toNat - 48)) * 10
        + (c4.toNat - 48))
    else none
  | _ => none

def firstFourDigits : List Char → Option ℕ
  | [] => none
  | c :: rest =>
    match fourDigitsAt (c :: rest) with
    | some n => some n
    | none => firstFourDigits rest

def extract4Str (s : String) : Option ℕ := firstFourDigits s.data

/-- `df[name].astype(str).str.extract(r"(\d{4})")` followed by
`pd.to_numeric`: outer `none` models the `AttributeError` raised when
`name` is a duplicated label (`df[name]` is then a frame without `.str`);
inner `none` means no cell matched. -/
def colExtractYear (df : DF) (name : String) : Option (Option (List Cell)) :=
  match dfSelect df name with
  | [v] =>
    let opts := v.map (fun c => extract4Str (pyStrOfCell c))
    if opts.any (·.isSome) then
      some (some (opts.map (fun o => match o with
        | some n => Cell.num n
        | none => Cell.nan)))
    else some none
  | [] => some none
  | _ => none

/-- The candidate loop of app/normalize.py lines 130–138: the first present
candidate column that yields any 4-digit match sets `year`; a candidate
with no match falls through to the next. -/
def tryCandList (df : DF) : List String → Option DF
  | [] => some df
  | c :: rest =>
    if dfHasCol df c then
      match colExtractYear df c with
      | none => none
      | some (some ys) => some (dfSetCol df "year" ys)
      | some none => tryCandList df rest
    else tryCandList df rest

/-- The last-resort loop of app/normalize.py lines 139–146 over all
columns. -/
def tryAllCols (df : DF) : List String → Option DF
  | [] => some df
  | c :: rest =>
    match colExtractYear df c with
    | none => none
    | some (some ys) => some (dfSetCol df "year" ys)
    | some none => tryAllCols df rest

/-- `normalize_rainfall` (app/normalize.py lines 45–155), long branch.
The wide per-station branch (lines 52–101, detected from the original
column names) is not modelled (`none`); no claim exercises it.  Missing
required columns are filled with `pd.NA` (lines 147–149, 152–154). -/
def normalize_rainfall (df0 : DF) : Option DF :=
  let stationCols := df0.filter (fun c =>
    (containsSub (lowerStr c.1) "actual" && containsSub (lowerStr c.1) "rain")
      || startsWithStr (lowerStr c.1) "actual_rainfall")
  if stationCols.isEmpty then
    let df1 : DF := df0.map (fun col => ((rainTargetOf (lowerTrim col.1)).getD col.1, col.2))
    let rainNames := (df1.filter (fun c => containsSub (lowerStr c.1) "rain")).map (·.1)
    let df2 : DF :=
      if rainNames.length > 1 then
        dfSetCol df1 "rainfall_mm" (rowwiseMean ((dfSelectList df1 rainNames).map toNumericCol))
      else match df1.filter (fun c => containsSub (lowerStr c.1) "rain") with
        | [c] => dfSetCol df1 "rainfall_mm" (toNumericCol c.2)
        | _ => df1
    ((if dfHasCol df2 "year" then
        match dfSelect df2 "year" with
        | [v] => some (dfSetCol df2 "year" (toNumericCol v))
        | _ => none
      else
        (tryCandList df2 ["peroid", "period", "month", "mon"]).bind (fun df3 =>
          if dfHasCol df3 "year" then some df3
          else tryAllCols df3 (df3.map (·.1)))) : Option DF).bind (fun df4 =>
    let df5 := ["state", "year", "rainfall_mm"].foldl
        (fun d req => if dfHasCol d req then d
          else d ++ [(req, List.replicate (dfNRows d) Cell.na)]) df4
    match dfSelect df5 "state" with
    | [v] =>
      let df6 := dfSetCol df5 "state"
        (fillnaCol (.text "Unknown")
          (strMapCol pyTitle (strMapCol trimStr (astypeStrCol v))))
      let cols := ["state", "district", "year", "month", "rainfall_mm"]
      let df7 := cols.foldl (fun d c => if dfHasCol d c then d
        else d ++ [(c, List.replicate (dfNRows d) Cell.na)]) df6
      some (cols.flatMap (fun n => df7.filter (fun col => col.1 == n)))
    | _ => none)
  else none

/-! Lemmas about the descending sort and the weighted sum. -/

theorem insertDescQ_of_le (x : ℚ) (l : List ℚ) (h : ∀ y ∈ l.head?, y ≤ x) :
    insertDescQ x l = x :: l := by
  cases l with
  | nil => rfl
  | cons y ys =>
    have : y ≤ x := h y rfl
    simp [insertDescQ, this]

/-- Sorting a list that is already sorted in descending order is the
identity. -/
theorem sortDescQ_of_sorted (l : List ℚ) (h : l.Pairwise (· ≥ ·)) :
    sortDescQ l = l := by
  induction l with
  | nil => rfl
  | cons x xs ih =>
    rw [List.pairwise_cons] at h
    rw [sortDescQ, ih h.2]
    apply insertDescQ_of_le
    intro y hy
    cases xs with
    | nil => simp at hy
    | cons z zs =>
      simp [List.head?] at hy
      subst hy
      exact h.1 z (by simp)

theorem wsumAux_eq_sum (n : ℚ) (l : List ℚ) :
    ∀ i : ℕ, wsumAux n i l =
      ∑ j ∈ Finset.range l.length, l.getD j 0 * ((i + j + 1 : ℚ) / n) := by
  induction l with
  | nil => intro i; simp [wsumAux]
  | cons v rest ih =>
    intro i
    rw [wsumAux, ih (i + 1)]
    rw [List.length_cons, Finset.sum_range_succ']
    simp only [List.getD_cons_succ, List.getD_cons_zero]
    rw [add_comm]
    congr 1
    · apply Finset.sum_congr rfl
      intro j _
      congr 2
      push_cast
      ring
    · congr 2
      push_cast
      ring

/-! ## Claims C5 and C6 -/

/-- C5 counterexample: the claim says every item in the returned list has a
score inside [0, 1], but a score-less item with a negative `relevance`
receives the assigned score `min 1 (0.5 + min 0.3 (-100/10)) = -19/2 < 0`. -/
theorem normalize_evidence_score_below_zero :
    normalize_evidence [⟨none, none, false, some (-100)⟩] =
      [⟨some (-19/2), none, false, some (-100)⟩] ∧ (-19/2 : ℚ) < 0 := by
  refine ⟨?_, by norm_num⟩
  simp only [normalize_evidence, evScore, assignedScore, List.map]
  norm_num

/-- C5 (amended): each item lacking a score is assigned
`min 1 (0.5 + recency + trust + relevance)` exactly as the claim states, and
that assigned score lies in [0, 1] provided the item's `relevance` (when
present) is nonnegative; a pre-existing score is kept unchanged (and hence
unbounded), and a negative `relevance` can push even an assigned score below
0. -/
theorem normalize_evidence_score_spec (es : List EvN) :
    ((normalize_evidence es).map (·.score)) = es.map (fun e => some (evScore e)) ∧
    ∀ e ∈ es,
      (e.score = none → evScore e = min 1 ((1:ℚ)/2
        + (match e.daysAgo with
            | some d => if d < 365 then 1/5 else if d < 1825 then 1/10 else 0
            | none => 0)
        + (if e.trust then 1/10 else 0)
        + (match e.relevance with
            | some r => min (3/10) (r/10)
            | none => 0))) ∧
      (e.score = none → (∀ r, e.relevance = some r → 0 ≤ r) →
        0 ≤ evScore e ∧ evScore e ≤ 1) ∧
      (e.score ≠ none → some (evScore e) = e.score) := by
  refine ⟨by simp [normalize_evidence], ?_⟩
  intro e he
  obtain ⟨s, d, t, r⟩ := e
  refine ⟨?_, ?_, ?_⟩
  · intro hs
    simp only at hs
    subst hs
    simp only [evScore, assignedScore, Option.getD]
  · intro hs hr
    simp only at hs
    subst hs
    have hr' : ∀ rr : ℚ, r = some rr → 0 ≤ rr := fun rr h => hr rr (by simp [h])
    clear hr he
    simp only [evScore, assignedScore, Option.getD]
    refine ⟨le_min (by norm_num) ?_, min_le_left _ _⟩
    rcases r with _ | rr <;> rcases d with _ | dd <;> cases t <;> dsimp only <;> split_ifs <;>
      first
        | linarith
        | (have h0 := hr' rr rfl
           have hm : (0:ℚ) ≤ min ((3:ℚ)/10) (rr/10) := le_min (by norm_num) (by positivity)
           linarith)
  · intro hs
    cases s with
    | none => simp at hs
    | some v => simp [evScore]

/-- C6: for a non-empty argument list whose provenance values are sorted
descending, `provenance_score` returns the arithmetic mean, and the
weighted score `(1/n) * Σ v_i * ((i+1)/n)` (0-based `i`), so the
highest-provenance value gets the smallest multiplier `1/n` and the lowest
the largest `n/n`. -/
theorem provenance_score_sorted_desc (vals : List ℚ) (h0 : vals ≠ [])
    (hs : vals.Pairwise (· ≥ ·)) :
    provenance_score vals = .full (vals.sum / vals.length)
      ((∑ i ∈ Finset.range vals.length,
          vals.getD i 0 * ((i + 1 : ℚ) / vals.length)) / vals.length) := by
  match vals, h0 with
  | v :: rest, _ =>
    show PSResult.full _ _ = _
    rw [sortDescQ_of_sorted _ hs, wsumAux_eq_sum]
    norm_num

/-- C6 witness: the theorem applied to the concrete descending list
`[3, 2, 1]`. -/
theorem provenance_score_sorted_desc_witness :
    provenance_score [(3:ℚ), 2, 1] =
      .full (([(3:ℚ), 2, 1]).sum / ([(3:ℚ), 2, 1]).length)
        ((∑ i ∈ Finset.range ([(3:ℚ), 2, 1]).length,
            ([(3:ℚ), 2, 1]).getD i 0 * ((i + 1 : ℚ) / ([(3:ℚ), 2, 1]).length)) /
          ([(3:ℚ), 2, 1]).length) :=
  provenance_score_sorted_desc [(3:ℚ), 2, 1] (by decide)
    (by norm_num [List.pairwise_cons])

/-! ## Claims C1, C2 and C4 -/

/-- C1: evaluating `find_district_extreme` at empty caller-supplied tables
shows the raising branch: `int(crops['year'].dropna().max())` is
`int(float('nan'))`, a `ValueError`, instead of the documented
`{error: ...}` result shape. -/
theorem find_district_extreme_empty_raises :
    find_district_extreme "State_X" "State_Y" "wheat" [] = none := rfl

/-- C2 counterexample: with production data for 2018–2020 and `years = 1`,
the claim restricts the computation to the single most recent year
(`recent_years 1 = [2020]`), but `trend_and_correlation` returns a payload
built from all three years. -/
theorem trend_window_not_restricted :
    trend_and_correlation "R" "wheat" 1
        [⟨"R", "D", "wheat", some 2018, some 10⟩,
         ⟨"R", "D", "wheat", some 2019, some 20⟩,
         ⟨"R", "D", "wheat", some 2020, some 30⟩]
        [⟨"R", some 2018, some 800⟩,
         ⟨"R", some 2019, some 600⟩,
         ⟨"R", some 2020, some 700⟩]
      = .ok (some 10) (some (-1/4)) [2018, 2019, 2020] ∧
    recent_years 1
        [⟨"R", "D", "wheat", some 2018, some 10⟩,
         ⟨"R", "D", "wheat", some 2019, some 20⟩,
         ⟨"R", "D", "wheat", some 2020, some 30⟩]
      = [2020] ∧
    (2018 : ℤ) ∉ ([2020] : List ℤ) := by
  refine ⟨?_, by decide, by decide⟩
  simp [trend_and_correlation, tc_joined, tc_yearly, tc_years, tc_filter, sortAscZ,
    insertAscZ, List.dedup, List.pwFilter, polyfit_slope, pearson]
  norm_num

/-- C2 (amended): `trend_and_correlation` ignores its `years` parameter
entirely — the result is the same for every window size, built from all
years present for the region and crop — and it does return the explicit
"no overlap" error result when no production year has a matching non-null
rainfall row. -/
theorem trend_ignores_years_param (region crop : String) (y1 : ℕ)
    (crops : List CropRow) (rain : List RainRow)
    (hne : tc_filter region crop crops ≠ [])
    (hov : tc_joined region crop crops rain = []) :
    (∀ a b : ℕ, trend_and_correlation region crop a crops rain
        = trend_and_correlation region crop b crops rain) ∧
    trend_and_correlation region crop y1 crops rain
        = .err "No overlapping rainfall data for region" := by
  refine ⟨fun a b => rfl, ?_⟩
  simp [trend_and_correlation, hne, hov]

/-- C2 witness: the amended theorem applied to a one-row production table
with no overlapping rainfall. -/
theorem trend_ignores_years_param_witness :
    (∀ a b : ℕ, trend_and_correlation "R" "wheat" a
        [⟨"R", "D", "wheat", some 2020, some 5⟩] []
        = trend_and_correlation "R" "wheat" b
        [⟨"R", "D", "wheat", some 2020, some 5⟩] []) ∧
    trend_and_correlation "R" "wheat" 1
        [⟨"R", "D", "wheat", some 2020, some 5⟩] []
        = .err "No overlapping rainfall data for region" :=
  trend_ignores_years_param "R" "wheat" 1
    [⟨"R", "D", "wheat", some 2020, some 5⟩] [] (by decide) (by decide)

/-- C4 counterexample: with exactly one overlapping year the claim says both
the correlation and the trend slope are null; the correlation is indeed
`none` (NaN) but the slope is the finite minimal-norm value
`100 / (2·2019) = 50/2019`, not null. -/
theorem single_overlap_slope_not_null :
    trend_and_correlation "State_X" "wheat" 10
        [⟨"State_X", "D1", "wheat", some 2019, some 100⟩]
        [⟨"State_X", some 2019, some 800⟩]
      = .ok (some (50/2019)) none [2019] ∧
    (some ((50:ℚ)/2019) ≠ (none : Option ℚ)) := by
  refine ⟨?_, by simp⟩
  simp [trend_and_correlation, tc_joined, tc_yearly, tc_years, tc_filter, sortAscZ,
    insertAscZ, List.dedup, List.pwFilter, polyfit_slope, pearson]
  norm_num

/-- C4 (amended): with exactly one overlapping (production, rainfall) year
the Pearson correlation is the null sentinel while the trend slope is the
finite minimal-norm value `p / (2·year)` (no crash either way), and in
`policy_arguments_for_crop_promotion` a crop series with fewer than 2 rows
gets variance `+∞`, which every finite variance undercuts (so an infinite
variance always loses a lower-is-better variability comparison). -/
theorem insufficient_data_sentinels (region crop : String) (yy : ℕ)
    (crops : List CropRow) (rain : List RainRow) (x : ℤ) (p rf : ℚ)
    (hne : tc_filter region crop crops ≠ [])
    (hj : tc_joined region crop crops rain = [(x, p, rf)])
    (hx : x ≠ 0) (rowsA : List CropRow) (hlen : rowsA.length < 2) :
    trend_and_correlation region crop yy crops rain
        = .ok (some (p / (2 * (x : ℚ)))) none [x] ∧
    crop_variance rowsA = some ⊤ ∧
    (∀ q : ℚ, (q : WithTop ℚ) < ⊤) := by
  refine ⟨?_, ?_, fun q => WithTop.coe_lt_top q⟩
  · have hne2 : tc_joined region crop crops rain ≠ [] := by simp [hj]
    simp [trend_and_correlation, hne, hj, polyfit_slope, pearson, hx]
  · have h2 : ¬ 1 < rowsA.length := by omega
    simp [crop_variance, h2]

/-- C4 witness: the amended theorem at a concrete one-point overlap and a
one-row crop series. -/
theorem insufficient_data_sentinels_witness :
    trend_and_correlation "R" "rice" 10
        [⟨"R", "D", "rice", some 2020, some 42⟩]
        [⟨"R", some 2020, some 500⟩]
        = .ok (some ((42:ℚ) / (2 * ((2020:ℤ) : ℚ)))) none [2020] ∧
    crop_variance [⟨"R", "D", "rice", some 2020, some 42⟩] = some ⊤ ∧
    (∀ q : ℚ, (q : WithTop ℚ) < ⊤) :=
  insufficient_data_sentinels "R" "rice" 10
    [⟨"R", "D", "rice", some 2020, some 42⟩]
    [⟨"R", some 2020, some 500⟩] 2020 42 500
    (by decide)
    (by simp [tc_joined, tc_yearly, tc_years, tc_filter, sortAscZ, insertAscZ,
      List.dedup, List.pwFilter])
    (by decide)
    [⟨"R", "D", "rice", some 2020, some 42⟩] (by decide)

/-! Lemmas about the generator's sort and selection. -/

theorem keyPairLe_total (p q : ℚ × ℤ) : keyPairLe p q ∨ keyPairLe q p := by
  unfold keyPairLe
  rcases lt_trichotomy p.1 q.1 with h | h | h
  · exact Or.inl (Or.inl h)
  · rcases le_total p.2 q.2 with h2 | h2
    · exact Or.inl (Or.inr ⟨h, h2⟩)
    · exact Or.inr (Or.inr ⟨h.symm, h2⟩)
  · exact Or.inr (Or.inl h)

theorem keyPairLe_trans {p q r : ℚ × ℤ} (h1 : keyPairLe p q) (h2 : keyPairLe q r) :
    keyPairLe p r := by
  unfold keyPairLe at *
  rcases h1 with h1 | ⟨e1, l1⟩ <;> rcases h2 with h2 | ⟨e2, l2⟩
  · exact Or.inl (h1.trans h2)
  · exact Or.inl (by rw [← e2]; exact h1)
  · exact Or.inl (by rw [e1]; exact h2)
  · exact Or.inr ⟨e1.trans e2, l1.trans l2⟩

theorem insertEv_perm (x : GEv) (l : List GEv) : (insertEv x l).Perm (x :: l) := by
  induction l with
  | nil => exact List.Perm.refl _
  | cons y ys ih =>
    rw [insertEv]
    split
    · exact List.Perm.refl _
    · exact (ih.cons y).trans (List.Perm.swap x y ys)

theorem insertEv_pairwise (x : GEv) (l : List GEv)
    (h : l.Pairwise (fun a b => keyPairLe (pyKey a) (pyKey b))) :
    (insertEv x l).Pairwise (fun a b => keyPairLe (pyKey a) (pyKey b)) := by
  induction l with
  | nil => simp [insertEv]
  | cons y ys ih =>
    rw [List.pairwise_cons] at h
    rw [insertEv]
    split
    · rename_i hxy
      refine List.Pairwise.cons ?_ (List.Pairwise.cons h.1 h.2)
      intro b hb
      rcases List.mem_cons.mp hb with rfl | hb2
      · exact hxy
      · exact keyPairLe_trans hxy (h.1 b hb2)
    · rename_i hxy
      have hyx : keyPairLe (pyKey y) (pyKey x) := (keyPairLe_total _ _).resolve_left hxy
      refine List.Pairwise.cons ?_ (ih h.2)
      intro b hb
      rcases List.mem_cons.mp ((insertEv_perm x ys).mem_iff.mp hb) with rfl | hb2
      · exact hyx
      · exact h.1 b hb2

theorem sortEv_perm (l : List GEv) : (sortEv l).Perm l := by
  induction l with
  | nil => exact List.Perm.refl _
  | cons x xs ih => exact (insertEv_perm x (sortEv xs)).trans (ih.cons x)

theorem sortEv_pairwise (l : List GEv) :
    (sortEv l).Pairwise (fun a b => keyPairLe (pyKey a) (pyKey b)) := by
  induction l with
  | nil => simp [sortEv]
  | cons x xs ih => exact insertEv_pairwise x _ ih

theorem partOf_isSome (e : GEv) (h : e.id.isSome) : (partOf e).isSome := by
  unfold partOf
  split
  · simp
  · split
    · simp
    · split
      · simp
      · exact h

theorem summarize_isSome (l : List GEv) (h : ∀ e ∈ l, e.id.isSome) :
    ∃ s, summarize l = some s := by
  unfold summarize
  have hall : ((l.take 3).map partOf).all (·.isSome) = true := by
    rw [List.all_eq_true]
    intro o ho
    rw [List.mem_map] at ho
    obtain ⟨e, he, rfl⟩ := ho
    exact partOf_isSome e (h e (List.take_subset _ _ he))
  rw [if_pos hall]
  exact ⟨_, rfl⟩

theorem greedy_go (s : List GEv) :
    ∀ (used : List (Option String)) (sel : List GEv),
    (s.map GEv.id).Nodup →
    greedy s used sel =
      (sel ++ (s.filter (fun e => !used.contains e.id)).take (3 - sel.length),
       used ++ ((s.filter (fun e => !used.contains e.id)).take (3 - sel.length)).map GEv.id) := by
  induction s with
  | nil => intro used sel _; simp [greedy]
  | cons e rest ih =>
    intro used sel hnd
    rw [List.map_cons, List.nodup_cons] at hnd
    rw [greedy]
    by_cases h3 : 3 ≤ sel.length
    · rw [if_pos h3]
      have h0 : 3 - sel.length = 0 := by omega
      simp [h0]
    · rw [if_neg h3]
      by_cases hu : used.contains e.id
      · rw [if_pos hu]
        have hu' : e.id ∈ used := by simpa using hu
        have hfe : (e :: rest).filter (fun x => !used.contains x.id)
            = rest.filter (fun x => !used.contains x.id) := by
          simp [List.filter_cons, hu']
        rw [hfe, ih used sel hnd.2]
      · rw [if_neg hu]
        have hu' : e.id ∉ used := by simpa using hu
        rw [ih (used ++ [e.id]) (sel ++ [e]) hnd.2]
        have hfeq : rest.filter (fun x => !(used ++ [e.id]).contains x.id)
            = rest.filter (fun x => !used.contains x.id) := by
          apply List.filter_congr
          intro x hx
          have hne : x.id ≠ e.id := fun hcontra =>
            hnd.1 (hcontra ▸ List.mem_map_of_mem GEv.id hx)
          simp [hne]
        have hcons : (e :: rest).filter (fun x => !used.contains x.id)
            = e :: rest.filter (fun x => !used.contains x.id) := by
          simp [List.filter_cons, hu']
        have hlen : 3 - sel.length = (3 - (sel ++ [e]).length) + 1 := by
          simp only [List.length_append, List.length_cons, List.length_nil]
          omega
        rw [hfeq, hcons, hlen, List.take_succ_cons]
        simp

theorem filter_not_mem_take (s : List GEv) (m : ℕ) (hnd : (s.map GEv.id).Nodup) :
    s.filter (fun e => !((s.take m).map GEv.id).contains e.id) = s.drop m := by
  induction s generalizing m with
  | nil => simp
  | cons e rest ih =>
    rw [List.map_cons, List.nodup_cons] at hnd
    cases m with
    | zero => simp
    | succ m' =>
      rw [List.take_succ_cons, List.drop_succ_cons, List.map_cons]
      rw [List.filter_cons]
      have hpe : (!((e.id :: (rest.take m').map GEv.id).contains e.id)) = false := by
        simp
      rw [hpe, if_neg (by simp)]
      have hcongr : rest.filter
            (fun x => !((e.id :: (rest.take m').map GEv.id).contains x.id))
          = rest.filter (fun x => !((rest.take m').map GEv.id).contains x.id) := by
        apply List.filter_congr
        intro x hx
        have hne : x.id ≠ e.id := fun hcontra =>
          hnd.1 (hcontra ▸ List.mem_map_of_mem GEv.id hx)
        simp [List.contains_cons, hne]
      rw [hcongr, ih m' hnd.2]

theorem selectSmall_eq (s : List GEv) (i : ℕ) (h : 0 < s.length) :
    selectSmall s i =
      (List.range (min 3 s.length)).map
        (fun j => s.getD ((i % s.length + j) % s.length) default) := by
  unfold selectSmall
  have key : ∀ js : List ℕ, js.filterMap (fun j => s[(i % s.length + j) % s.length]?)
      = js.map (fun j => s.getD ((i % s.length + j) % s.length) default) := by
    intro js
    induction js with
    | nil => rfl
    | cons j rest ihj =>
      have hlt : (i % s.length + j) % s.length < s.length := Nat.mod_lt _ h
      rw [List.filterMap_cons, List.map_cons, ihj]
      rw [List.getElem?_eq_getElem hlt]
      rw [List.getD_eq_getElem _ _ hlt]
  exact key _

theorem selectSmall_ne_nil (s : List GEv) (i : ℕ) (h : 0 < s.length) :
    selectSmall s i ≠ [] := by
  rw [selectSmall_eq s i h]
  have : min 3 s.length ≠ 0 := by omega
  simp [List.range_eq_nil, this]

theorem expectedSelSpec_subset (s : List GEv) (i : ℕ) :
    ∀ e ∈ expectedSelSpec s i, e ∈ s := by
  intro e he
  unfold expectedSelSpec at he
  split at he
  · simp at he
  · split at he
    · rw [List.mem_map] at he
      obtain ⟨j, _, rfl⟩ := he
      rename_i h0 _
      have hlt : (i % s.length + j) % s.length < s.length := Nat.mod_lt _ (by omega)
      rw [List.getD_eq_getElem _ _ hlt]
      exact List.getElem_mem _
    · split at he
      · exact List.take_subset _ _ he
      · exact List.drop_subset _ _ (List.take_subset _ _ he)

theorem slotFor_spec (s : List GEv) (q : String) (i : ℕ)
    (hid : ∀ e ∈ s, e.id.isSome) (hnd : (s.map GEv.id).Nodup) :
    slotFor s q (usedSpec s i) i =
      (some (mkArg q i (expectedSelSpec s i)
          ((summarize (expectedSelSpec s i)).getD "")),
       usedSpec s (i + 1)) := by
  obtain ⟨sm, hsm⟩ := summarize_isSome (expectedSelSpec s i)
    (fun e he => hid e (expectedSelSpec_subset s i e he))
  by_cases h0 : s.length = 0
  · have hs : s = [] := List.length_eq_zero.mp h0
    subst hs
    rfl
  · by_cases h3 : s.length ≤ 3
    · have hpos : 0 < s.length := by omega
      have hnlt : ¬ 3 < s.length := by omega
      have husedi : usedSpec s i = [] := by
        simp only [usedSpec, if_neg hnlt]
      have husedi1 : usedSpec s (i + 1) = [] := by
        simp only [usedSpec, if_neg hnlt]
      have hsel : expectedSelSpec s i = selectSmall s i := by
        rw [selectSmall_eq s i hpos]
        simp only [expectedSelSpec, if_neg h0, if_pos h3]
      have hemp : (selectSmall s i).isEmpty = false := by
        simpa using selectSmall_ne_nil s i hpos
      rw [husedi, husedi1]
      simp only [slotFor, if_neg h0, if_pos h3, hemp, Bool.false_eq_true, if_false]
      rw [← hsel, hsm]
      rfl
    · have h3' : 3 < s.length := by omega
      have hused : usedSpec s i = (s.take (3 * i)).map GEv.id := by
        simp only [usedSpec, if_pos h3']
      have hgr : greedy s (usedSpec s i) [] =
          ((s.drop (3 * i)).take 3,
           (s.take (3 * i)).map GEv.id ++ ((s.drop (3 * i)).take 3).map GEv.id) := by
        rw [hused, greedy_go s _ [] hnd, filter_not_mem_take s (3 * i) hnd]
        simp
      have hused1 : usedSpec s (i + 1)
          = (s.take (3 * i)).map GEv.id ++ ((s.drop (3 * i)).take 3).map GEv.id := by
        simp only [usedSpec, if_pos h3']
        rw [show 3 * (i + 1) = 3 * i + 3 from by ring, List.take_add, List.map_append]
      simp only [slotFor, if_neg h0, if_neg h3]
      rw [hgr]
      by_cases hdrop : s.drop (3 * i) = []
      · have hsel : expectedSelSpec s i = s.take (min 3 s.length) := by
          simp only [expectedSelSpec, if_neg h0, if_neg h3]
          rw [if_pos (by simp [hdrop])]
        simp only [hdrop, List.take_nil, List.isEmpty_nil, if_true, List.map_nil,
          List.append_nil]
        rw [← hsel, hsm]
        have husedtriv : usedSpec s (i + 1) = (s.take (3 * i)).map GEv.id := by
          rw [hused1, hdrop]
          simp
        rw [husedtriv]
        rfl
      · have htk : (s.drop (3 * i)).take 3 ≠ [] := by
          simp only [ne_eq, List.take_eq_nil_iff]
          push_neg
          exact ⟨by omega, hdrop⟩
        have hemp : ((s.drop (3 * i)).take 3).isEmpty = false := by
          simpa using htk
        have hsel : expectedSelSpec s i = (s.drop (3 * i)).take 3 := by
          simp only [expectedSelSpec, if_neg h0, if_neg h3]
          rw [if_neg (by simpa using hdrop)]
        simp only [hemp, Bool.false_eq_true, if_false]
        rw [hused1, ← hsel, hsm]
        rfl

theorem gen_fold (s : List GEv) (q : String) (argf : ℕ → PArg)
    (usedf : ℕ → List (Option String))
    (hstep : ∀ i, slotFor s q (usedf i) i = (some (argf i), usedf (i + 1))) :
    ∀ k, (List.range k).foldl (genStep s q) (some [], usedf 0)
        = (some ((List.range k).map argf), usedf k) := by
  intro k
  induction k with
  | zero => simp
  | succ k ih =>
    rw [List.range_succ, List.foldl_append, ih]
    simp only [List.foldl_cons, List.foldl_nil, genStep, hstep k]
    simp [List.map_append]

/-! ## Claims C9 and C10 -/

/-- C9: over evidence whose items carry pairwise distinct ids (as
`normalize_evidence` guarantees), `generate_policy_argument` sorts by score
descending then date descending with missing dates at the epoch, produces a
record per slot framed pro for even slots and con for odd slots, and
selects per slot exactly as the claim describes: a rotating window
`start = i mod n` of `min 3 n` items when `1 ≤ n ≤ 3`, else the next up to
3 not-yet-used items in sorted order with the globally top-ranked fallback
once all ids are used. -/
theorem generate_selection_policy (q : String) (ev : List GEv) (k : ℕ)
    (hid : ∀ e ∈ ev, e.id.isSome) (hnd : (ev.map GEv.id).Nodup) :
    SelectionSpec q ev k := by
  have hperm : (sortEv ev).Perm ev := sortEv_perm ev
  have hid' : ∀ e ∈ sortEv ev, e.id.isSome := fun e he => hid e (hperm.mem_iff.mp he)
  have hnd' : ((sortEv ev).map GEv.id).Nodup := ((hperm.map GEv.id).nodup_iff).mpr hnd
  refine ⟨sortEv_pairwise ev, hperm, ?_⟩
  have hfold := gen_fold (sortEv ev) q
    (fun i => mkArg q i (expectedSelSpec (sortEv ev) i)
      ((summarize (expectedSelSpec (sortEv ev) i)).getD ""))
    (usedSpec (sortEv ev))
    (fun i => slotFor_spec (sortEv ev) q i hid' hnd') k
  have h0 : usedSpec (sortEv ev) 0 = [] := by
    unfold usedSpec
    split <;> simp
  unfold generate_policy_argument
  rw [show ((some [], ([] : List (Option String)))
        = ((some [] : Option (List PArg)), usedSpec (sortEv ev) 0)) from by rw [h0]]
  rw [hfold]
  refine ⟨by simp, ?_⟩
  intro i hik
  rw [List.getD_eq_getElem?_getD, List.getElem?_map, List.getElem?_range hik]
  simp

/-- C9 witness: the selection specification holds at a concrete four-item
evidence list (exercising the `n > 3` greedy branch, its exhaustion
fallback, and both framings) with `top_k = 5`. -/
theorem generate_selection_policy_witness :
    SelectionSpec "Promote millet over maize"
      [⟨some "e1", some (9/10), some 100, some "h1", none, none⟩,
       ⟨some "e2", some (8/10), none, some "h2", none, none⟩,
       ⟨some "e3", some (7/10), some 50, none, some "t3", none⟩,
       ⟨some "e4", some (6/10), none, none, none, some "s4"⟩] 5 :=
  generate_selection_policy _ _ 5 (by decide) (by decide)

/-- C10: on the empty evidence list, every requested slot is produced
without raising: exactly `top_k` records, each with an empty sources list,
provenance score 0 (the divisor is guarded by `max 1 _`), and non-empty
templated argument text. -/
theorem generate_empty_evidence (q : String) (k : ℕ) : emptyGenSpec q k := by
  have hstep : ∀ i, slotFor ([] : List GEv) q [] i = (some (mkArg q i [] ""), []) := by
    intro i
    rfl
  have hfold := gen_fold [] q (fun i => mkArg q i [] "") (fun _ => []) hstep k
  unfold emptyGenSpec generate_policy_argument
  rw [show sortEv [] = [] from rfl]
  rw [hfold]
  refine ⟨by simp, ?_⟩
  intro a ha
  rw [List.mem_map] at ha
  obtain ⟨i, _, rfl⟩ := ha
  refine ⟨rfl, by simp [mkArg], ?_⟩
  simp only [mkArg]
  intro hcontra
  apply congrArg String.length at hcontra
  rw [String.length_append, String.length_append, String.length_append,
    String.length_append, String.length_append] at hcontra
  cases h2 : (i % 2 == 0) <;> rw [h2] at hcontra <;> simp at hcontra <;>
    exact absurd hcontra.2 (by decide)

/-! Evaluation lemmas for the dataframe model. -/

theorem dfHasCol_cons (m : String) (v : List Cell) (rest : DF) (n : String) :
    dfHasCol ((m, v) :: rest) n = (m == n || dfHasCol rest n) := by
  simp [dfHasCol]

theorem dfHasCol_nil (n : String) : dfHasCol [] n = false := rfl

theorem dfSelect_cons (m : String) (v : List Cell) (rest : DF) (n : String) :
    dfSelect ((m, v) :: rest) n
      = if m == n then v :: dfSelect rest n else dfSelect rest n := by
  simp only [dfSelect, List.filter_cons]
  cases h : (m == n) <;> simp [h]

theorem dfSelect_nil (n : String) : dfSelect [] n = [] := rfl

theorem dfSetCol_eq (df : DF) (n : String) (v : List Cell) :
    dfSetCol df n v = if dfHasCol df n then df.map (fun c => if c.1 == n then (n, v) else c)
      else df ++ [(n, v)] := rfl

theorem rowsOf_two (cols : List (List Cell)) :
    rowsOf 2 cols = [headsOf cols, headsOf (tailsOf cols)] := rfl

/-- Shared evaluation of the rainfall normalizer on a two-row table whose
`rainfall` and `rain_mm` columns both map to the canonical rainfall field:
the output holds the row-wise mean of the two source columns. -/
theorem rain_dup_helper (a b c d : ℚ) :
    dfGetCol ((normalize_rainfall
        [("year", [Cell.num 2018, Cell.num 2019]),
         ("rainfall", [Cell.num a, Cell.num b]),
         ("rain_mm", [Cell.num c, Cell.num d])]).getD []) "rainfall_mm"
      = [Cell.num ((a + c) / 2), Cell.num ((b + d) / 2)] := by
  have a1 : containsSub (lowerStr "year") "actual" = false := by decide
  have a2 : containsSub (lowerStr "rainfall") "actual" = false := by decide
  have a3 : containsSub (lowerStr "rain_mm") "actual" = false := by decide
  have w1 : startsWithStr (lowerStr "year") "actual_rainfall" = false := by decide
  have w2 : startsWithStr (lowerStr "rainfall") "actual_rainfall" = false := by decide
  have w3 : startsWithStr (lowerStr "rain_mm") "actual_rainfall" = false := by decide
  have r1 : rainTargetOf (lowerTrim "year") = some "year" := by decide
  have r2 : rainTargetOf (lowerTrim "rainfall") = some "rainfall_mm" := by decide
  have r3 : rainTargetOf (lowerTrim "rain_mm") = some "rainfall_mm" := by decide
  have c1 : containsSub (lowerStr "year") "rain" = false := by decide
  have c2 : containsSub (lowerStr "rainfall_mm") "rain" = true := by decide
  simp only [normalize_rainfall, List.filter_cons, List.filter_nil, a1, a2, a3, w1, w2, w3,
    Bool.false_eq_true, if_false, List.isEmpty_nil, if_true, ite_true, ite_false,
    List.map_cons, List.map_nil, r1, r2, r3, Option.getD_some, c1, c2,
    String.reduceBEq, String.reduceEq, beq_self_eq_true, Bool.or_false, Bool.false_or,
    Bool.or_true, Bool.true_or, Bool.and_false, Bool.and_true, Bool.false_and, Bool.true_and,
    List.length_cons, List.length_nil, Nat.reduceAdd, Nat.reduceLT, Nat.reduceGT,
    dfHasCol_cons, dfHasCol_nil, dfSelect_cons, dfSelect_nil, dfSetCol_eq, dfSelectList,
    dfGetCol, dfNRows, List.flatMap_cons, List.flatMap_nil, List.foldl_cons, List.foldl_nil,
    toNumericCol, toNumericCell, rowwiseMean, colsNRows, rowsOf_two, headsOf, tailsOf,
    cellNumVal, List.filterMap_cons, List.filterMap_nil, List.head?_cons, List.head?_nil,
    List.tail_cons, Option.some_bind, List.append_nil, List.nil_append, List.cons_append,
    List.singleton_append, List.replicate, List.sum_cons, List.sum_nil, Nat.reduceEqDiff,
    Option.map_some', Option.map_none']
  norm_num
  constructor <;> ring

/-- Shared evaluation of the agriculture normalizer on a two-row table whose
`production` and `prod qty` columns both map to the canonical production
field: the output holds the row-wise sum of the two source columns. -/
theorem agri_dup_helper (a b c d : ℚ) :
    dfGetCol ((normalize_agriculture
        [("production", [Cell.num a, Cell.num b]),
         ("prod qty", [Cell.num c, Cell.num d])]).getD []) "production_tonnes"
      = [Cell.num (a + c), Cell.num (b + d)] := by
  have g1 : agriTarget (lowerTrim "production") = some "production_tonnes" := by decide
  have g2 : agriTarget (lowerTrim "prod qty") = some "production_tonnes" := by decide
  simp only [normalize_agriculture, List.filter_cons, List.filter_nil,
    List.map_cons, List.map_nil, g1, g2, Option.getD_some,
    Bool.false_eq_true, if_false, if_true, ite_true, ite_false,
    String.reduceBEq, String.reduceEq, beq_self_eq_true, Bool.or_false, Bool.false_or,
    Bool.or_true, Bool.true_or, Bool.and_false, Bool.and_true, Bool.false_and, Bool.true_and,
    List.length_cons, List.length_nil, Nat.reduceAdd, Nat.reduceLT, Nat.reduceGT,
    dfHasCol_cons, dfHasCol_nil, dfSelect_cons, dfSelect_nil, dfSetCol_eq, dfSelectList,
    dfGetCol, dfNRows, List.flatMap_cons, List.flatMap_nil, List.foldl_cons, List.foldl_nil,
    toNumericCol, toNumericCell, rowwiseSum, colsNRows, rowsOf_two, headsOf, tailsOf,
    cellNumVal, List.filterMap_cons, List.filterMap_nil, List.head?_cons, List.head?_nil,
    List.tail_cons, Option.some_bind, List.append_nil, List.nil_append, List.cons_append,
    List.singleton_append, List.replicate, List.sum_cons, List.sum_nil, Nat.reduceEqDiff,
    Option.map_some', Option.map_none', fillnaCol, astypeStrCol, strMapCol, pyStrOfCell]
  norm_num

/-! ## Claims C3, C7 and C8 -/

/-- C3 counterexample: a rainfall table whose `rainfall` and `rain_mm`
columns both map to the canonical rainfall field combines them by row-wise
MEAN, not summation: values 100 and 300 become 200, not 400. -/
theorem rainfall_dup_columns_mean_not_sum :
    dfGetCol ((normalize_rainfall
        [("year", [Cell.num 2018, Cell.num 2019]),
         ("rainfall", [Cell.num 100, Cell.num 120]),
         ("rain_mm", [Cell.num 300, Cell.num 280])]).getD []) "rainfall_mm"
      = [Cell.num 200, Cell.num 200] ∧ (200 : ℚ) ≠ 100 + 300 := by
  constructor
  · have h := rain_dup_helper 100 120 300 280
    norm_num at h
    exact h
  · norm_num

/-- C3 (amended): when two source columns map to the same canonical field,
`normalize_agriculture` coerces them to numeric and combines them into the
canonical production column by row-wise summation, but `normalize_rainfall`
combines its duplicate-mapped rain columns by row-wise MEAN (averaging the
non-null values), not by summation — shown here for arbitrary two-row
numeric tables. -/
theorem dup_columns_sum_vs_mean (a b c d : ℚ) :
    dfGetCol ((normalize_agriculture
        [("production", [Cell.num a, Cell.num b]),
         ("prod qty", [Cell.num c, Cell.num d])]).getD []) "production_tonnes"
      = [Cell.num (a + c), Cell.num (b + d)] ∧
    dfGetCol ((normalize_rainfall
        [("year", [Cell.num 2018, Cell.num 2019]),
         ("rainfall", [Cell.num a, Cell.num b]),
         ("rain_mm", [Cell.num c, Cell.num d])]).getD []) "rainfall_mm"
      = [Cell.num ((a + c) / 2), Cell.num ((b + d) / 2)] :=
  ⟨agri_dup_helper a b c d, rain_dup_helper a b c d⟩

/-- C7 counterexample: two rows with different canonical field values whose
stringified values joined with `'|'` coincide (a value containing the
delimiter) receive the same `__row_id`, so an id need not change when a
canonical value changes. -/
theorem row_checksum_collision :
    row_checksum ["a|b", "c", "", "", "", ""] = row_checksum ["a", "b|c", "", "", "", ""] ∧
    (["a|b", "c", "", "", "", ""] : List String) ≠ ["a", "b|c", "", "", "", ""] := by
  exact ⟨by decide, by decide⟩

/-- C7 (amended): the `__row_id` checksum is a deterministic function of the
row's canonical values only — equal canonical values always give equal ids,
and permuting the input rows permutes the checksum column identically (each
row keeps its id) — but an id need not change when a canonical value
changes: rows whose serializations collide share an id. -/
theorem row_id_stability :
    (∀ rows : List (List String), map_schema_ids rows = rows.map row_checksum) ∧
    (∀ v₁ v₂ : List String, v₁ = v₂ → row_checksum v₁ = row_checksum v₂) ∧
    (∀ rows₁ rows₂ : List (List String), rows₁.Perm rows₂ →
        (map_schema_ids rows₁).Perm (map_schema_ids rows₂)) :=
  ⟨fun _ => rfl, fun _ _ h => h ▸ rfl, fun _ _ h => h.map row_checksum⟩

/-- C7 witness: the permutation clause applied to a concrete two-row swap. -/
theorem row_id_stability_witness :
    (map_schema_ids [["x", "1"], ["y", "2"]]).Perm (map_schema_ids [["y", "2"], ["x", "1"]]) :=
  row_id_stability.2.2 [["x", "1"], ["y", "2"]] [["y", "2"], ["x", "1"]] (by decide)

/-- C8: evaluating `normalize_agriculture` at a table with no state-like
column shows the failing default: the output `state` is the string
`"None"` — `astype(str)` stringifies the null before the dead
`fillna('Unknown')` — while the crop is lower-cased and trimmed as
claimed. -/
theorem normalize_agriculture_state_none :
    dfGetCol ((normalize_agriculture
        [("crop", [Cell.text " Wheat "]), ("year", [Cell.num 2018]),
         ("prod", [Cell.num 5])]).getD []) "state" = [Cell.text "None"] ∧
    dfGetCol ((normalize_agriculture
        [("crop", [Cell.text " Wheat "]), ("year", [Cell.num 2018]),
         ("prod", [Cell.num 5])]).getD []) "crop" = [Cell.text "wheat"] ∧
    ("None" : String) ≠ "Unknown" := by
  exact ⟨by decide, by decide, by decide⟩

/-- C5 witness: the score bound of the amended theorem applied to a
concrete score-less item with a recent date, trust, and relevance 5. -/
theorem normalize_evidence_score_spec_witness :
    0 ≤ evScore ⟨none, some 100, true, some 5⟩ ∧
    evScore ⟨none, some 100, true, some 5⟩ ≤ 1 :=
  ((normalize_evidence_score_spec [⟨none, some 100, true, some 5⟩]).2
    ⟨none, some 100, true, some 5⟩ (by simp)).2.1 rfl
    (fun r hr => by
      simp only [Option.some.injEq] at hr
      rw [← hr]
      norm_num)

end Samarth
